import Mathlib

/-!
Shallow embedding of the Phase-2 task backend
(`src/Phase-2/backend/app`): the task data model, the ownership-scoped
repository, the task service, the HTTP route handlers and the JWT
verification layer, together with theorems about their behaviour.

Modelling conventions:
* UUIDs are `Nat`; datetimes are `Nat` timestamps.
* The database table is a `List Task`; a SQL `SELECT ... ORDER BY
  created_at DESC` is `List.filter` followed by `List.insertionSort`.
* Exceptions become `Except` values; stateful operations take the store
  and return the (possibly updated) store.
* Calls from the service into the repository are recorded in a trace so
  that "no repository call executes" is a statement about the model.
-/

namespace TaskApp

/-- Models the `Task` row of `app/models/task.py` (`class Task(SQLModel)`). -/
structure Task where
  id : Nat
  user_id : String
  title : String
  description : Option String
  status : String
  priority : Option String
  created_at : Nat
  updated_at : Nat
deriving Repr, DecidableEq

/-- `ORDER BY created_at DESC`: `a` comes before `b` when `b` was created
no later than `a`. -/
def newestFirst (a b : Task) : Prop := b.created_at ≤ a.created_at

instance : DecidableRel newestFirst := fun a b =>
  inferInstanceAs (Decidable (b.created_at ≤ a.created_at))

instance : IsTotal Task newestFirst :=
  ⟨fun a b => Nat.le_total b.created_at a.created_at⟩

instance : IsTrans Task newestFirst :=
  ⟨fun _ _ _ h1 h2 => Nat.le_trans h2 h1⟩

/-- `TaskRepository.find_by_user_id`: all rows of `user_id` whose status is
not `"deleted"`, newest created first. -/
def find_by_user_id (db : List Task) (user_id : String) : List Task :=
  List.insertionSort newestFirst
    (db.filter fun t => decide (t.user_id = user_id ∧ t.status ≠ "deleted"))

/-- `TaskRepository.find_by_id`: first row matching both the id and the
owner; no status filter. -/
def find_by_id (db : List Task) (user_id : String) (task_id : Nat) : Option Task :=
  db.find? fun t => t.id == task_id && t.user_id == user_id

/-- The `task_data` dict built by `TaskService.create_task`. -/
structure TaskData where
  title : String
  description : Option String
  priority : String
deriving Repr, DecidableEq

/-- `TaskRepository.create`: a fresh row with `status="pending"`,
`created_at`/`updated_at` set to the current time, appended to the table.
Returns the new table and the new row. -/
def repoCreate (db : List Task) (user_id : String) (data : TaskData)
    (newId now : Nat) : List Task × Task :=
  let t : Task :=
    { id := newId, user_id := user_id, title := data.title
      description := data.description, status := "pending"
      priority := some data.priority, created_at := now, updated_at := now }
  (db ++ [t], t)

/-- The `update_data` dict built by `TaskService.update_task`: a key is
present only when the request supplied that field.  The description value
is itself optional (an empty request description is stored as NULL). -/
structure UpdateData where
  title : Option String
  description : Option (Option String)
  status : Option String
  priority : Option String
deriving Repr, DecidableEq

/-- The `setattr` loop of `TaskRepository.update`: apply exactly the keys
present in the dict. -/
def applyUpdates (t : Task) (u : UpdateData) : Task :=
  { t with
    title := u.title.getD t.title
    description := u.description.getD t.description
    status := u.status.getD t.status
    priority := match u.priority with
      | some p => some p
      | none => t.priority }

/-- Commit of a mutated ORM row: replace the first row matching
(id, owner) — the row `find_by_id` returned — in the table. -/
def replaceFirst (db : List Task) (user_id : String) (task_id : Nat)
    (t2 : Task) : List Task :=
  match db with
  | [] => []
  | u :: rest =>
      if u.id == task_id && u.user_id == user_id then t2 :: rest
      else u :: replaceFirst rest user_id task_id t2

/-- `TaskRepository.update`: find the row, apply the dict, bump
`updated_at`, commit.  `none` models the `return None` branch. -/
def repoUpdate (db : List Task) (user_id : String) (task_id : Nat)
    (u : UpdateData) (now : Nat) : Option (List Task × Task) :=
  match find_by_id db user_id task_id with
  | none => none
  | some t =>
      let t2 : Task := { applyUpdates t u with updated_at := now }
      some (replaceFirst db user_id task_id t2, t2)

/-- `TaskRepository.soft_delete`: find the row, set `status="deleted"`,
bump `updated_at`, commit.  `none` models the `return False` branch. -/
def repoSoftDelete (db : List Task) (user_id : String) (task_id : Nat)
    (now : Nat) : Option (List Task) :=
  match find_by_id db user_id task_id with
  | none => none
  | some t =>
      let t2 : Task := { t with status := "deleted", updated_at := now }
      some (replaceFirst db user_id task_id t2)

/-- The error classes the service and route layer raise
(`HTTPException` codes of `task_service.py` / `tasks.py`). -/
inductive Err where
  | notFound
  | invalidState
  | validation (msg : String)
  | forbidden
  | internal
deriving Repr, DecidableEq

/-- One call from the service into the repository, recorded in order. -/
inductive RepoCall where
  | findByUserId (user_id : String)
  | findById (user_id : String) (task_id : Nat)
  | createCall (user_id : String)
  | updateCall (user_id : String) (task_id : Nat)
  | softDeleteCall (user_id : String) (task_id : Nat)
deriving Repr, DecidableEq

/-- `TaskCreateRequest` after FastAPI parsing. -/
structure TaskCreateRequest where
  title : String
  description : Option String
  priority : Option String
deriving Repr, DecidableEq

/-- `TaskUpdateRequest` after FastAPI parsing: every field optional. -/
structure TaskUpdateRequest where
  title : Option String
  description : Option String
  status : Option String
  priority : Option String
deriving Repr, DecidableEq

/-- `TaskService.list_tasks`. -/
def list_tasks (db : List Task) (user_id : String) :
    Except Err (List Task) × List Task × List RepoCall :=
  (.ok (find_by_user_id db user_id), db, [.findByUserId user_id])

/-- `TaskService.get_task`: 404 when `find_by_id` returns nothing. -/
def get_task (db : List Task) (user_id : String) (task_id : Nat) :
    Except Err Task × List Task × List RepoCall :=
  match find_by_id db user_id task_id with
  | none => (.error .notFound, db, [.findById user_id task_id])
  | some t => (.ok t, db, [.findById user_id task_id])

/-- `TaskService.create_task`: validate title and description, build the
`task_data` dict, insert. -/
def create_task (db : List Task) (user_id : String) (req : TaskCreateRequest)
    (newId now : Nat) : Except Err Task × List Task × List RepoCall :=
  if req.title.trim = "" then
    (.error (.validation "Task title cannot be empty"), db, [])
  else if (match req.description with
           | some d => decide (d.length > 10000)
           | none => false) then
    (.error (.validation "Task description cannot exceed 10,000 characters"), db, [])
  else
    let data : TaskData :=
      { title := req.title.trim
        description := match req.description with
          | some d => if d = "" then none else some d.trim
          | none => none
        priority := match req.priority with
          | some p => if p = "" then "medium" else p
          | none => "medium" }
    let r := repoCreate db user_id data newId now
    (.ok r.2, r.1, [.createCall user_id])

/-- `TaskService.update_task`: 404 when absent, 400 when the row is
deleted, validate provided fields, build the dict, commit. -/
def update_task (db : List Task) (user_id : String) (task_id : Nat)
    (req : TaskUpdateRequest) (now : Nat) :
    Except Err Task × List Task × List RepoCall :=
  match find_by_id db user_id task_id with
  | none => (.error .notFound, db, [.findById user_id task_id])
  | some t =>
    if t.status = "deleted" then
      (.error .invalidState, db, [.findById user_id task_id])
    else if (match req.title with
             | some s => decide (s.trim = "")
             | none => false) then
      (.error (.validation "Task title cannot be empty"), db,
        [.findById user_id task_id])
    else if (match req.description with
             | some d => decide (d.length > 10000)
             | none => false) then
      (.error (.validation "Task description cannot exceed 10,000 characters"),
        db, [.findById user_id task_id])
    else
      let u : UpdateData :=
        { title := req.title.map String.trim
          description := match req.description with
            | some d => some (if d = "" then none else some d.trim)
            | none => none
          status := req.status
          priority := req.priority }
      match repoUpdate db user_id task_id u now with
      | some r =>
          (.ok r.2, r.1, [.findById user_id task_id, .updateCall user_id task_id])
      | none =>
          (.error .internal, db,
            [.findById user_id task_id, .updateCall user_id task_id])

/-- `TaskService.delete_task`: 404 when absent; already-deleted rows
succeed as a no-op; otherwise soft delete. -/
def delete_task (db : List Task) (user_id : String) (task_id : Nat)
    (now : Nat) : Except Err Bool × List Task × List RepoCall :=
  match find_by_id db user_id task_id with
  | none => (.error .notFound, db, [.findById user_id task_id])
  | some t =>
    if t.status = "deleted" then
      (.ok true, db, [.findById user_id task_id])
    else
      match repoSoftDelete db user_id task_id now with
      | some db2 =>
          (.ok true, db2, [.findById user_id task_id, .softDeleteCall user_id task_id])
      | none =>
          (.ok false, db, [.findById user_id task_id, .softDeleteCall user_id task_id])

/-- The authenticated identity of `app/core/auth.py` (`class User`). -/
structure User where
  id : String
  email : String
  name : Option String
deriving Repr, DecidableEq

/-- Route handler `GET /api/\x7buser_id\x7d/tasks`: ownership gate first. -/
def list_tasks_endpoint (db : List Task) (cu : User) (user_id : String) :
    Except Err (List Task) × List Task × List RepoCall :=
  if cu.id ≠ user_id then (.error .forbidden, db, [])
  else list_tasks db user_id

/-- Route handler `GET /api/\x7buser_id\x7d/tasks/\x7btask_id\x7d`. -/
def get_task_endpoint (db : List Task) (cu : User) (user_id : String)
    (task_id : Nat) : Except Err Task × List Task × List RepoCall :=
  if cu.id ≠ user_id then (.error .forbidden, db, [])
  else get_task db user_id task_id

/-- Route handler `POST /api/\x7buser_id\x7d/tasks`. -/
def create_task_endpoint (db : List Task) (cu : User) (user_id : String)
    (req : TaskCreateRequest) (newId now : Nat) :
    Except Err Task × List Task × List RepoCall :=
  if cu.id ≠ user_id then (.error .forbidden, db, [])
  else create_task db user_id req newId now

/-- Route handler `PATCH /api/\x7buser_id\x7d/tasks/\x7btask_id\x7d`. -/
def update_task_endpoint (db : List Task) (cu : User) (user_id : String)
    (task_id : Nat) (req : TaskUpdateRequest) (now : Nat) :
    Except Err Task × List Task × List RepoCall :=
  if cu.id ≠ user_id then (.error .forbidden, db, [])
  else update_task db user_id task_id req now

/-- Route handler `DELETE /api/\x7buser_id\x7d/tasks/\x7btask_id\x7d`. -/
def delete_task_endpoint (db : List Task) (cu : User) (user_id : String)
    (task_id : Nat) (now : Nat) :
    Except Err Bool × List Task × List RepoCall :=
  if cu.id ≠ user_id then (.error .forbidden, db, [])
  else delete_task db user_id task_id now

/-! ## JWT verification layer (`app/core/auth.py`)

Key material is abstracted to the set of key ids present in a fetched
key set; a network fetch either succeeds with such a set or fails
(models `httpx` errors and non-200 responses, which `raise_for_status`
turns into `httpx.HTTPError`). -/

/-- Models `_JWKSCache`: the cached key ids and the expiry timestamp. -/
structure JWKSCache where
  keys : List String
  expires_at : Nat
deriving Repr, DecidableEq

/-- The distinguishable failures of `verify_token`, one per
`HTTPException` raise site. -/
inductive VerifyErr where
  | invalidKey
  | missingSubject
  | tokenExpired
  | invalidToken
  | providerUnreachable
deriving Repr, DecidableEq

/-- The `detail` string of the `HTTPException` each failure raises. -/
def VerifyErr.detail : VerifyErr → String
  | .invalidKey => "Invalid token key"
  | .missingSubject => "Invalid token: missing user id"
  | .tokenExpired => "Token has expired. Please sign in again."
  | .invalidToken => "Invalid token"
  | .providerUnreachable => "Auth server unavailable. Please try again."

/-- `_get_jwks`: return the cached keys when a cache exists and is
unexpired; otherwise fetch, and on success replace the cache wholesale.
The third component records whether a network fetch happened. -/
def getJwks (cache : Option JWKSCache) (now : Nat)
    (fetch : Except Unit (List String)) :
    Except VerifyErr (List String) × Option JWKSCache × Bool :=
  match cache with
  | some c =>
      if now < c.expires_at then (.ok c.keys, some c, false)
      else
        match fetch with
        | .error _ => (.error .providerUnreachable, some c, true)
        | .ok ks => (.ok ks, some ⟨ks, now + 300⟩, true)
  | none =>
      match fetch with
      | .error _ => (.error .providerUnreachable, none, true)
      | .ok ks => (.ok ks, some ⟨ks, now + 300⟩, true)

/-- Abstract JWT token: the facts the `jwt` library extracts or decides
about the raw string.  `headerKid = none` models an unparsable header
(`get_unverified_header` raises); `headerKid = some k` a parsed header
whose `kid` field is `k` (itself absent when `none`).  `sigValid` is
signature validity under the key its `kid` names. -/
structure TokenData where
  headerKid : Option (Option String)
  sigValid : Bool
  expired : Bool
  sub : Option String
  email : Option String
  name : Option String
deriving Repr, DecidableEq

/-- The two `jwt` exception classes `verify_token` distinguishes. -/
inductive JwtError where
  | invalidTokenErr
  | expiredSignature
deriving Repr, DecidableEq

/-- Models PyJWT `jwt.decode`: the signature is verified before claims
such as `exp` are validated, so an invalid signature raises
`InvalidSignatureError` (an `InvalidTokenError`) even when the token is
also expired; only a token whose signature verifies can raise
`ExpiredSignatureError`. -/
def jwtDecode (tok : TokenData) : Except JwtError Unit :=
  if !tok.sigValid then .error .invalidTokenErr
  else if tok.expired then .error .expiredSignature
  else .ok ()

/-- Python `not kid or kid not in public_keys`: `kid` is `None` or the
empty string, or absent from the key set. -/
def kidMissing (kid : Option String) (keys : List String) : Bool :=
  match kid with
  | none => true
  | some k => k == "" || !keys.contains k

/-- The tail of `verify_token` after a key has been resolved:
`jwt.decode`, the `sub` check, and the `except` clauses mapping
`jwt` exceptions to responses. -/
def finishDecode (tok : TokenData) (cache : Option JWKSCache) (n : Nat) :
    Except VerifyErr User × Option JWKSCache × Nat :=
  match jwtDecode tok with
  | .error .expiredSignature => (.error .tokenExpired, cache, n)
  | .error .invalidTokenErr => (.error .invalidToken, cache, n)
  | .ok _ =>
      match tok.sub with
      | none => (.error .missingSubject, cache, n)
      | some s =>
          if s = "" then (.error .missingSubject, cache, n)
          else (.ok ⟨s, tok.email.getD "", tok.name⟩, cache, n)

/-- `verify_token`.  `fetch1`/`fetch2` are the outcomes of the first and
second network fetch, should they occur.  Returns the result, the final
cache, and the number of network fetches performed.  The initial key-set
resolution happens before the header is parsed, as in the source. -/
def verifyToken (cache : Option JWKSCache) (now : Nat)
    (fetch1 fetch2 : Except Unit (List String)) (tok : TokenData) :
    Except VerifyErr User × Option JWKSCache × Nat :=
  match getJwks cache now fetch1 with
  | (.error e, cache1, f1) => (.error e, cache1, cond f1 1 0)
  | (.ok keys1, cache1, f1) =>
      match tok.headerKid with
      | none => (.error .invalidToken, cache1, cond f1 1 0)
      | some kid =>
          if kidMissing kid keys1 then
            match getJwks none now fetch2 with
            | (.error e, cache2, _) => (.error e, cache2, cond f1 1 0 + 1)
            | (.ok keys2, cache2, _) =>
                if kidMissing kid keys2 then
                  (.error .invalidKey, cache2, cond f1 1 0 + 1)
                else finishDecode tok cache2 (cond f1 1 0 + 1)
          else finishDecode tok cache1 (cond f1 1 0)

/-- `TaskUpdateRequest.validate_status` (`app/models/task.py`): the
pydantic field validator for `status`. -/
def validateStatus (v : Option String) : Except String (Option String) :=
  match v with
  | none => .ok none
  | some s =>
      if s = "pending" ∨ s = "in-progress" ∨ s = "completed" then .ok (some s)
      else .error "status must be one of: pending, in-progress, completed"

/-! ## Helper lemmas -/

/-- A successful `find_by_id` returns a row of the table with the
requested id and owner. -/
theorem find_by_id_some {db : List Task} {user_id : String} {task_id : Nat}
    {t : Task} (h : find_by_id db user_id task_id = some t) :
    t ∈ db ∧ t.id = task_id ∧ t.user_id = user_id := by
  refine ⟨List.mem_of_find?_eq_some h, ?_⟩
  have hp := List.find?_some h
  simpa using hp

/-- `find_by_id` succeeds exactly when such a row exists. -/
theorem find_by_id_isSome (db : List Task) (user_id : String) (task_id : Nat) :
    (find_by_id db user_id task_id).isSome ↔
      ∃ t, t ∈ db ∧ t.id = task_id ∧ t.user_id = user_id := by
  simp [find_by_id, List.find?_isSome]

/-- After replacing the row `find_by_id` located with a row carrying the
same id and owner, `find_by_id` returns the replacement. -/
theorem find_by_id_replaceFirst {db : List Task} {user_id : String}
    {task_id : Nat} (t2 : Task) (hex : (find_by_id db user_id task_id).isSome)
    (hid : t2.id = task_id) (huid : t2.user_id = user_id) :
    find_by_id (replaceFirst db user_id task_id t2) user_id task_id = some t2 := by
  induction db with
  | nil => simp [find_by_id] at hex
  | cons u rest ih =>
      by_cases h : (u.id == task_id && u.user_id == user_id) = true
      · simp [find_by_id, replaceFirst, List.find?_cons, h, hid, huid]
      · have hf : (u.id == task_id && u.user_id == user_id) = false := by
          simpa using h
        simp [find_by_id, replaceFirst, List.find?_cons, hf] at hex ⊢
        exact ih (by simpa [find_by_id] using hex)

/-- Rows that do not match the (id, owner) key survive `replaceFirst`
untouched. -/
theorem mem_replaceFirst_of_not_matching {db : List Task} {user_id : String}
    {task_id : Nat} (t2 : Task) {u : Task} (hu : u ∈ db)
    (hne : ¬(u.id = task_id ∧ u.user_id = user_id)) :
    u ∈ replaceFirst db user_id task_id t2 := by
  induction db with
  | nil => simp at hu
  | cons v rest ih =>
      rcases List.mem_cons.mp hu with hv | hrest
      · subst hv
        have hvb : (u.id == task_id && u.user_id == user_id) = false := by
          simp only [Bool.and_eq_false_iff, beq_eq_false_iff_ne, ne_eq]
          by_contra hc
          push_neg at hc
          exact hne ⟨by simpa using hc.1, by simpa using hc.2⟩
        simp [replaceFirst, hvb]
      · by_cases h : (v.id == task_id && v.user_id == user_id) = true
        · simp [replaceFirst, h, List.mem_cons, hrest]
        · simp only [replaceFirst, Bool.not_eq_true] at h ⊢
          rw [if_neg (by simp [h])]
          exact List.mem_cons.mpr (Or.inr (ih hrest))

/-! ## Claims -/

/-- C1: for every task operation, an authenticated identity whose
subject id differs from the owner id in the path fails forbidden with
no repository call recorded and the store unchanged. -/
theorem C1_ownership_gate_before_repository (db : List Task) (cu : User)
    (user_id : String) (task_id : Nat) (creq : TaskCreateRequest)
    (ureq : TaskUpdateRequest) (newId now : Nat) (h : cu.id ≠ user_id) :
    list_tasks_endpoint db cu user_id = (.error .forbidden, db, []) ∧
    get_task_endpoint db cu user_id task_id = (.error .forbidden, db, []) ∧
    create_task_endpoint db cu user_id creq newId now = (.error .forbidden, db, []) ∧
    update_task_endpoint db cu user_id task_id ureq now = (.error .forbidden, db, []) ∧
    delete_task_endpoint db cu user_id task_id now = (.error .forbidden, db, []) := by
  refine ⟨?_, ?_, ?_, ?_, ?_⟩ <;>
    simp [list_tasks_endpoint, get_task_endpoint, create_task_endpoint,
      update_task_endpoint, delete_task_endpoint, h]

/-- Witness for C1 at a concrete mismatched pair of identities. -/
theorem C1_witness :
    list_tasks_endpoint [] ⟨"alice", "a@x", none⟩ "bob" = (.error .forbidden, [], []) ∧
    delete_task_endpoint [] ⟨"alice", "a@x", none⟩ "bob" 7 9 = (.error .forbidden, [], []) := by
  have h := C1_ownership_gate_before_repository [] ⟨"alice", "a@x", none⟩ "bob" 7
    ⟨"t", none, none⟩ ⟨none, none, none, none⟩ 3 9 (by decide)
  exact ⟨h.1, h.2.2.2.2⟩

/-- C7: updating a row whose current status is `"deleted"` fails with
the invalid-state error, the store is unchanged, and only the lookup
repository call ran — nothing was written. -/
theorem C7_update_deleted_rejected (db : List Task) (user_id : String)
    (task_id : Nat) (req : TaskUpdateRequest) (now : Nat) (t : Task)
    (hfind : find_by_id db user_id task_id = some t)
    (hdel : t.status = "deleted") :
    update_task db user_id task_id req now =
      (.error .invalidState, db, [.findById user_id task_id]) := by
  simp [update_task, hfind, hdel]

/-- Witness for C7 on a one-row store holding a deleted task. -/
theorem C7_witness :
    update_task [⟨1, "a", "T", none, "deleted", some "medium", 0, 0⟩] "a" 1
      ⟨some "New", none, none, none⟩ 5 =
      (.error .invalidState,
        [⟨1, "a", "T", none, "deleted", some "medium", 0, 0⟩],
        [.findById "a" 1]) :=
  C7_update_deleted_rejected
    [⟨1, "a", "T", none, "deleted", some "medium", 0, 0⟩] "a" 1
    ⟨some "New", none, none, none⟩ 5
    ⟨1, "a", "T", none, "deleted", some "medium", 0, 0⟩ (by decide) rfl

/-- C5: `get_task` succeeds exactly when a row with the requested id
belongs to the requesting owner (its status, `"deleted"` included, is
irrelevant); whenever no such owned row exists — whether the id belongs
to another owner or to nobody — it fails with the same not-found
error. -/
theorem C5_get_owned_or_not_found (db : List Task) (user_id : String)
    (task_id : Nat) :
    ((∃ t, t ∈ db ∧ t.id = task_id ∧ t.user_id = user_id) ↔
      ∃ t, (get_task db user_id task_id).1 = .ok t) ∧
    (∀ t, (get_task db user_id task_id).1 = .ok t →
      t ∈ db ∧ t.id = task_id ∧ t.user_id = user_id) ∧
    ((¬ ∃ t, t ∈ db ∧ t.id = task_id ∧ t.user_id = user_id) →
      (get_task db user_id task_id).1 = .error .notFound) := by
  refine ⟨?_, ?_, ?_⟩
  · constructor
    · intro hex
      have hs : (find_by_id db user_id task_id).isSome := by
        rw [find_by_id_isSome]; exact hex
      rcases Option.isSome_iff_exists.mp hs with ⟨t, ht⟩
      exact ⟨t, by simp [get_task, ht]⟩
    · rintro ⟨t, ht⟩
      cases hf : find_by_id db user_id task_id with
      | none => simp [get_task, hf] at ht
      | some t0 => exact ⟨t0, find_by_id_some hf⟩
  · intro t ht
    cases hf : find_by_id db user_id task_id with
    | none => simp [get_task, hf] at ht
    | some t0 =>
        simp [get_task, hf] at ht
        exact ht ▸ find_by_id_some hf
  · intro hnone
    have hs : find_by_id db user_id task_id = none := by
      rw [← Option.not_isSome_iff_eq_none, find_by_id_isSome]
      exact hnone
    simp [get_task, hs]

/-- Witness for C5: an owned soft-deleted row is returned; a foreign or
absent id yields the not-found error. -/
theorem C5_witness :
    (get_task [⟨1, "a", "T", none, "deleted", some "low", 0, 0⟩] "a" 1).1 =
      .ok ⟨1, "a", "T", none, "deleted", some "low", 0, 0⟩ ∧
    (get_task [⟨1, "a", "T", none, "deleted", some "low", 0, 0⟩] "b" 1).1 =
      .error .notFound := by
  constructor
  · rfl
  · exact (C5_get_owned_or_not_found
      [⟨1, "a", "T", none, "deleted", some "low", 0, 0⟩] "b" 1).2.2 (by decide)

/-- C6: `list_tasks`' repository query returns exactly the owner's
non-deleted rows, newest created first, and a store made of rows of
owner `user_id` plus rows of other owners lists exactly the former. -/
theorem C6_list_owner_scoped (db : List Task) (user_id : String) :
    (∀ t, t ∈ find_by_user_id db user_id ↔
      (t ∈ db ∧ t.user_id = user_id ∧ t.status ≠ "deleted")) ∧
    List.Sorted newestFirst (find_by_user_id db user_id) ∧
    (∀ dbA dbB : List Task,
      (∀ t ∈ dbA, t.user_id = user_id ∧ t.status ≠ "deleted") →
      (∀ t ∈ dbB, t.user_id ≠ user_id) →
      (find_by_user_id (dbA ++ dbB) user_id).length = dbA.length) := by
  refine ⟨?_, ?_, ?_⟩
  · intro t
    simp [find_by_user_id, List.mem_filter, and_assoc]
  · exact List.sorted_insertionSort newestFirst _
  · intro dbA dbB hA hB
    have h1 : dbA.filter
        (fun t => decide (t.user_id = user_id ∧ t.status ≠ "deleted")) = dbA :=
      List.filter_eq_self.mpr (fun a ha => by simp [hA a ha])
    have h2 : dbB.filter
        (fun t => decide (t.user_id = user_id ∧ t.status ≠ "deleted")) = [] := by
      rw [List.filter_eq_nil_iff]
      intro a ha
      simp [hB a ha]
    simp only [find_by_user_id, List.filter_append, h1, h2,
      List.append_nil, List.length_insertionSort]

/-- Witness for C6: one owner-A row, one deleted owner-A row, one
owner-B row; listing as A returns exactly the live A row. -/
theorem C6_witness :
    (find_by_user_id
      [⟨1, "a", "T1", none, "pending", some "low", 5, 5⟩,
       ⟨2, "a", "T2", none, "deleted", some "low", 9, 9⟩,
       ⟨3, "b", "T3", none, "pending", some "low", 7, 7⟩] "a" =
      [⟨1, "a", "T1", none, "pending", some "low", 5, 5⟩]) ∧
    (find_by_user_id
      [⟨1, "a", "T1", none, "pending", some "low", 5, 5⟩,
       ⟨3, "b", "T3", none, "pending", some "low", 7, 7⟩] "a").length = 1 := by
  constructor
  · rfl
  · exact (C6_list_owner_scoped [] "a").2.2
      [⟨1, "a", "T1", none, "pending", some "low", 5, 5⟩]
      [⟨3, "b", "T3", none, "pending", some "low", 7, 7⟩]
      (by decide) (by decide)

/-- C8: deletion is idempotent: an absent id fails not-found; an
already-deleted owned row succeeds as a no-op leaving the store
unchanged; a live owned row is soft-deleted with `updated_at` bumped,
and deleting it again succeeds while changing nothing. -/
theorem C8_delete_idempotent (db : List Task) (user_id : String)
    (task_id : Nat) (now now2 : Nat) :
    (find_by_id db user_id task_id = none →
      delete_task db user_id task_id now =
        (.error .notFound, db, [.findById user_id task_id])) ∧
    (∀ t, find_by_id db user_id task_id = some t → t.status = "deleted" →
      delete_task db user_id task_id now =
        (.ok true, db, [.findById user_id task_id])) ∧
    (∀ t, find_by_id db user_id task_id = some t → t.status ≠ "deleted" →
      ∃ db2, delete_task db user_id task_id now =
          (.ok true, db2,
            [.findById user_id task_id, .softDeleteCall user_id task_id]) ∧
        find_by_id db2 user_id task_id =
          some { t with status := "deleted", updated_at := now } ∧
        delete_task db2 user_id task_id now2 =
          (.ok true, db2, [.findById user_id task_id])) := by
  refine ⟨?_, ?_, ?_⟩
  · intro h
    simp [delete_task, h]
  · intro t h hdel
    simp [delete_task, h, hdel]
  · intro t h hne
    obtain ⟨-, hid, huid⟩ := find_by_id_some h
    have hf2 : find_by_id (replaceFirst db user_id task_id
        { t with status := "deleted", updated_at := now }) user_id task_id =
        some { t with status := "deleted", updated_at := now } :=
      find_by_id_replaceFirst _ (by simp [h]) (by simpa using hid)
        (by simpa using huid)
    refine ⟨replaceFirst db user_id task_id
      { t with status := "deleted", updated_at := now }, ?_, hf2, ?_⟩
    · simp [delete_task, h, hne, repoSoftDelete]
    · simp [delete_task, hf2]

/-- Witness for C8: a live owned row on a one-row store. -/
theorem C8_witness :
    ∃ db2, delete_task [⟨1, "a", "T", none, "pending", some "low", 0, 0⟩]
        "a" 1 4 = (.ok true, db2, [.findById "a" 1, .softDeleteCall "a" 1]) ∧
      find_by_id db2 "a" 1 = some ⟨1, "a", "T", none, "deleted", some "low", 0, 4⟩ ∧
      delete_task db2 "a" 1 6 = (.ok true, db2, [.findById "a" 1]) :=
  (C8_delete_idempotent [⟨1, "a", "T", none, "pending", some "low", 0, 0⟩]
      "a" 1 4 6).2.2 ⟨1, "a", "T", none, "pending", some "low", 0, 0⟩
    (by decide) (by decide)

/-- C9: a successful update writes exactly the provided fields plus
`updated_at`, never touching `id`, `user_id` or `created_at`; soft
delete likewise preserves those identity fields; and rows other than
the targeted one survive any row replacement untouched. -/
theorem C9_update_frame (db : List Task) (user_id : String) (task_id : Nat)
    (req : TaskUpdateRequest) (now : Nat) :
    (∀ t2 db2 tr, update_task db user_id task_id req now = (.ok t2, db2, tr) →
      ∃ t, find_by_id db user_id task_id = some t ∧
        t2.id = t.id ∧ t2.user_id = t.user_id ∧ t2.created_at = t.created_at ∧
        t2.updated_at = now ∧
        (req.title = none → t2.title = t.title) ∧
        (req.description = none → t2.description = t.description) ∧
        (req.status = none → t2.status = t.status) ∧
        (req.priority = none → t2.priority = t.priority) ∧
        (∀ s, req.title = some s → t2.title = s.trim) ∧
        (∀ s, req.status = some s → t2.status = s) ∧
        (∀ p, req.priority = some p → t2.priority = some p) ∧
        db2 = replaceFirst db user_id task_id t2) ∧
    (∀ t, find_by_id db user_id task_id = some t → t.status ≠ "deleted" →
      ∃ t2, delete_task db user_id task_id now =
          (.ok true, replaceFirst db user_id task_id t2,
            [.findById user_id task_id, .softDeleteCall user_id task_id]) ∧
        t2.id = t.id ∧ t2.user_id = t.user_id ∧ t2.created_at = t.created_at) ∧
    (∀ t2 u, u ∈ db → ¬(u.id = task_id ∧ u.user_id = user_id) →
      u ∈ replaceFirst db user_id task_id t2) := by
  refine ⟨?_, ?_, ?_⟩
  · intro t2 db2 tr hok
    cases hf : find_by_id db user_id task_id with
    | none => simp [update_task, hf] at hok
    | some t =>
        refine ⟨t, rfl, ?_⟩
        simp only [update_task, hf] at hok
        by_cases h1 : t.status = "deleted"
        · simp [h1] at hok
        rw [if_neg h1] at hok
        by_cases h2 : (match req.title with
            | some s => decide (s.trim = "")
            | none => false) = true
        · simp [h2] at hok
        rw [if_neg h2] at hok
        by_cases h3 : (match req.description with
            | some d => decide (d.length > 10000)
            | none => false) = true
        · simp [h3] at hok
        rw [if_neg h3] at hok
        simp only [repoUpdate, hf, Prod.mk.injEq, Except.ok.injEq] at hok
        obtain ⟨ht2, hdb2, -⟩ := hok
        subst ht2
        subst hdb2
        refine ⟨rfl, rfl, rfl, rfl, ?_, ?_, ?_, ?_, ?_, ?_, ?_, rfl⟩ <;>
          simp [applyUpdates]
        · intro h; simp [h]
        · intro h; simp [h]
        · intro h; simp [h]
        · intro h; simp [h]
        · intro s h; simp [h]
        · intro s h; simp [h]
        · intro p h; simp [h]
  · intro t hf hne
    refine ⟨{ t with status := "deleted", updated_at := now }, ?_, rfl, rfl, rfl⟩
    simp [delete_task, hf, hne, repoSoftDelete]
  · intro t2 u hu hne
    exact mem_replaceFirst_of_not_matching t2 hu hne

/-- Witness for C9 on a concrete partial update that only sets the
status. -/
theorem C9_witness :
    ∃ t, find_by_id [⟨1, "a", "T", some "d", "pending", some "low", 0, 0⟩] "a" 1 =
        some t ∧
      (⟨1, "a", "T", some "d", "completed", some "low", 0, 8⟩ : Task).id = t.id ∧
      (⟨1, "a", "T", some "d", "completed", some "low", 0, 8⟩ : Task).user_id = t.user_id ∧
      (⟨1, "a", "T", some "d", "completed", some "low", 0, 8⟩ : Task).created_at = t.created_at ∧
      (⟨1, "a", "T", some "d", "completed", some "low", 0, 8⟩ : Task).updated_at = 8 ∧
      ((none : Option String) = none →
        (⟨1, "a", "T", some "d", "completed", some "low", 0, 8⟩ : Task).title = t.title) ∧
      ((none : Option String) = none →
        (⟨1, "a", "T", some "d", "completed", some "low", 0, 8⟩ : Task).description = t.description) ∧
      ((some "completed" : Option String) = none →
        (⟨1, "a", "T", some "d", "completed", some "low", 0, 8⟩ : Task).status = t.status) ∧
      ((none : Option String) = none →
        (⟨1, "a", "T", some "d", "completed", some "low", 0, 8⟩ : Task).priority = t.priority) ∧
      (∀ s, (none : Option String) = some s →
        (⟨1, "a", "T", some "d", "completed", some "low", 0, 8⟩ : Task).title = s.trim) ∧
      (∀ s, (some "completed" : Option String) = some s →
        (⟨1, "a", "T", some "d", "completed", some "low", 0, 8⟩ : Task).status = s) ∧
      (∀ p, (none : Option String) = some p →
        (⟨1, "a", "T", some "d", "completed", some "low", 0, 8⟩ : Task).priority = some p) ∧
      [⟨1, "a", "T", some "d", "completed", some "low", 0, 8⟩] =
        replaceFirst [⟨1, "a", "T", some "d", "pending", some "low", 0, 0⟩] "a" 1
          ⟨1, "a", "T", some "d", "completed", some "low", 0, 8⟩ :=
  (C9_update_frame [⟨1, "a", "T", some "d", "pending", some "low", 0, 0⟩]
      "a" 1 ⟨none, none, some "completed", none⟩ 8).1
    ⟨1, "a", "T", some "d", "completed", some "low", 0, 8⟩
    [⟨1, "a", "T", some "d", "completed", some "low", 0, 8⟩]
    [.findById "a" 1, .updateCall "a" 1] rfl

/-- C2 counterexample: a token that is both expired and carries an
invalid signature fails with the generic invalid-token error, not the
expiry-specific one — the signature is verified before the expiry
claim. -/
theorem C2_counterexample :
    (verifyToken (some ⟨["k1"], 100⟩) 0 (.ok ["k1"]) (.ok ["k1"])
        ⟨some (some "k1"), false, true, some "u", none, none⟩).1 =
      .error .invalidToken ∧
    VerifyErr.invalidToken ≠ VerifyErr.tokenExpired := by
  exact ⟨rfl, by decide⟩

/-- C2 amended: an expired token whose key id resolves from a valid
cache fails with the expiry-specific error when its signature is valid,
and with the generic invalid-token error when it is not. -/
theorem C2_expired_after_signature (cache : Option JWKSCache) (now : Nat)
    (f1 f2 : Except Unit (List String)) (tok : TokenData) (k : String)
    (c : JWKSCache) (hc : cache = some c) (hvalid : now < c.expires_at)
    (hkid : tok.headerKid = some (some k)) (hne : k ≠ "")
    (hmem : c.keys.contains k = true) (hexp : tok.expired = true) :
    (verifyToken cache now f1 f2 tok).1 =
      (if tok.sigValid then Except.error VerifyErr.tokenExpired
       else Except.error VerifyErr.invalidToken) := by
  subst hc
  have hm : k ∈ c.keys := by simpa using hmem
  have hmiss : kidMissing (some k) c.keys = false := by
    simp [kidMissing, hne, hm]
  cases hs : tok.sigValid <;>
    simp [verifyToken, getJwks, hvalid, hkid, hmiss, finishDecode,
      jwtDecode, hs, hexp]

/-- Witness for the amended C2: an expired, validly signed token. -/
theorem C2_witness :
    (verifyToken (some ⟨["k1"], 100⟩) 0 (.ok ["k1"]) (.ok ["k1"])
        ⟨some (some "k1"), true, true, some "u", none, none⟩).1 =
      .error .tokenExpired := by
  have h := C2_expired_after_signature (some ⟨["k1"], 100⟩) 0 (.ok ["k1"])
    (.ok ["k1"]) ⟨some (some "k1"), true, true, some "u", none, none⟩ "k1"
    ⟨["k1"], 100⟩ rfl (by decide) rfl (by decide) (by decide) rfl
  simpa using h

/-- C3 counterexample: with an empty cache, a token whose header cannot
be parsed still triggers one key-set fetch (the fetch count is 1, and
the fetched snapshot is cached) before failing with the generic
invalid-token error — not a malformed-token failure with zero cache
activity. -/
theorem C3_counterexample :
    verifyToken none 0 (.ok ["k1"]) (.ok ["k1"])
        ⟨none, true, false, some "u", none, none⟩ =
      (.error .invalidToken, some ⟨["k1"], 300⟩, 1) ∧ (1 : Nat) ≠ 0 := by
  exact ⟨rfl, by decide⟩

/-- C3 amended: `verify_token` resolves the key set via the cache
(fetching when empty or expired) before parsing the header.  An
unparsable header then fails with the generic invalid-token error, the
initial resolution's cache effect and fetch both having happened (a
failed initial resolution surfaces as its error instead); and a
parsable header whose kid is absent or unknown triggers exactly one
clear-plus-refetch — one extra fetch, the cache replaced wholesale by
the refetched snapshot — before failing with the invalid-key error
when the refetched key set still lacks the kid. -/
theorem C3_jwks_resolved_before_header_parse (cache : Option JWKSCache)
    (now : Nat) (f1 f2 : Except Unit (List String)) (tok : TokenData) :
    (tok.headerKid = none →
      (∀ keys1 cache1 fl1, getJwks cache now f1 = (.ok keys1, cache1, fl1) →
        verifyToken cache now f1 f2 tok =
          (.error .invalidToken, cache1, cond fl1 1 0)) ∧
      (∀ e cache1 fl1, getJwks cache now f1 = (.error e, cache1, fl1) →
        verifyToken cache now f1 f2 tok = (.error e, cache1, cond fl1 1 0))) ∧
    (∀ kid keys1 cache1 fl1 keys2,
      tok.headerKid = some kid →
      getJwks cache now f1 = (.ok keys1, cache1, fl1) →
      kidMissing kid keys1 = true →
      f2 = .ok keys2 →
      kidMissing kid keys2 = true →
      verifyToken cache now f1 f2 tok =
        (.error .invalidKey, some ⟨keys2, now + 300⟩, cond fl1 1 0 + 1)) := by
  constructor
  · intro h
    constructor
    · intro keys1 cache1 fl1 hj
      simp [verifyToken, hj, h]
    · intro e cache1 fl1 hj
      simp [verifyToken, hj]
  · intro kid keys1 cache1 fl1 keys2 hkid hj hmiss hf2 hmiss2
    subst hf2
    simp only [verifyToken, hj, hkid]
    simp only [getJwks]
    simp [hmiss, hmiss2]

/-- Witness for the amended C3: an unparsable header after a fetch from
an empty cache, and an unknown kid resolved against a valid cache with
one refetch ending in the invalid-key error. -/
theorem C3_witness :
    verifyToken none 7 (.ok ["k2"]) (.ok ["k2"])
        ⟨none, true, false, some "u", none, none⟩ =
      (.error .invalidToken, some ⟨["k2"], 307⟩, 1) ∧
    verifyToken (some ⟨["k1"], 100⟩) 0 (.ok ["k1"]) (.ok ["k9"])
        ⟨some (some "kX"), true, false, some "u", none, none⟩ =
      (.error .invalidKey, some ⟨["k9"], 300⟩, 1) := by
  constructor
  · have h := ((C3_jwks_resolved_before_header_parse none 7 (.ok ["k2"])
      (.ok ["k2"]) ⟨none, true, false, some "u", none, none⟩).1 rfl).1
      ["k2"] (some ⟨["k2"], 307⟩) true rfl
    simpa using h
  · have h := (C3_jwks_resolved_before_header_parse (some ⟨["k1"], 100⟩) 0
      (.ok ["k1"]) (.ok ["k9"])
      ⟨some (some "kX"), true, false, some "u", none, none⟩).2
      (some "kX") ["k1"] (some ⟨["k1"], 100⟩) false ["k9"]
      rfl rfl (by decide) rfl (by decide)
    simpa using h

/-- C4 counterexample: a still-valid cache holding key `"k1"`, a token
naming unknown key `"k2"`, and a failing refresh: the failure surfaces
as the provider-unreachable error, but the final cache is empty — the
still-valid snapshot was evicted by the clear that precedes the
refetch. -/
theorem C4_counterexample :
    verifyToken (some ⟨["k1"], 100⟩) 0 (.ok ["k1"]) (.error ())
        ⟨some (some "k2"), true, false, some "u", none, none⟩ =
      (.error .providerUnreachable, none, 1) ∧
    (none : Option JWKSCache) ≠ some ⟨["k1"], 100⟩ := by
  exact ⟨rfl, by decide⟩

/-- C4 amended: `_get_jwks` itself leaves the cache exactly as it was
when a fetch fails, but the unknown-kid path of `verify_token` clears
the cache before refetching, so a failed refresh there leaves the cache
empty and still-valid keys are lost. -/
theorem C4_failed_refresh_cache_effect (cache : Option JWKSCache) (now : Nat)
    (f1 : Except Unit (List String)) (tok : TokenData) (k : String)
    (c : JWKSCache) (hc : cache = some c) (hvalid : now < c.expires_at)
    (hkid : tok.headerKid = some (some k))
    (hmiss : kidMissing (some k) c.keys = true) :
    (∀ (cache2 : Option JWKSCache) (now2 : Nat),
      (getJwks cache2 now2 (.error ())).2.1 = cache2) ∧
    verifyToken cache now f1 (.error ()) tok =
      (.error .providerUnreachable, none, 1) := by
  constructor
  · intro cache2 now2
    cases cache2 with
    | none => rfl
    | some c2 =>
        by_cases h2 : now2 < c2.expires_at <;> simp [getJwks, h2]
  · subst hc
    simp [verifyToken, getJwks, hvalid, hkid, hmiss]

/-- Witness for the amended C4 at a concrete valid cache and unknown
kid. -/
theorem C4_witness :
    (getJwks (some ⟨["k1"], 100⟩) 0 (.error ())).2.1 = some ⟨["k1"], 100⟩ ∧
    verifyToken (some ⟨["k1"], 100⟩) 5 (.ok ["k1"]) (.error ())
        ⟨some (some "k3"), true, false, some "u", none, none⟩ =
      (.error .providerUnreachable, none, 1) := by
  have h := C4_failed_refresh_cache_effect (some ⟨["k1"], 100⟩) 5 (.ok ["k1"])
    ⟨some (some "k3"), true, false, some "u", none, none⟩ "k3" ⟨["k1"], 100⟩
    rfl (by decide) rfl (by decide)
  exact ⟨h.1 (some ⟨["k1"], 100⟩) 0, h.2⟩

/-- C10: the update status validator accepts `"in-progress"` (with a
hyphen) and rejects `"in_progress"` (with an underscore), contradicting
the spec enum, the field's own description and the repository's tests;
`"deleted"` is rejected as claimed. -/
theorem C10_status_validator_divergence :
    validateStatus (some "in_progress") =
      .error "status must be one of: pending, in-progress, completed" ∧
    validateStatus (some "in-progress") = .ok (some "in-progress") ∧
    validateStatus (some "pending") = .ok (some "pending") ∧
    validateStatus (some "completed") = .ok (some "completed") ∧
    validateStatus (some "deleted") =
      .error "status must be one of: pending, in-progress, completed" ∧
    validateStatus none = .ok none := by
  refine ⟨?_, ?_, ?_, ?_, ?_, ?_⟩ <;> rfl

end TaskApp
